import Mathlib

/-!
# Verification of the transcript-driven UI action-replay engine

Shallow embedding of `aiauto/suites/ui/compare/scenario1.py`,
`aiauto/common/metrics.py` and the resource-handling skeleton of
`run_scenario1`.  External collaborators (pandas, Playwright, sklearn,
OpenAI embeddings) are modelled as parameters, exactly at the call
boundaries the source uses.
-/

namespace AiAuto

/-! ## Python string primitives (ASCII fragment used by the source) -/

/-- Word-character class (`\w`) of Python `re`, restricted to the ASCII range the source data uses:
letters, digits and underscore. -/
def isWordChar (c : Char) : Bool := c.isAlphanum || c = '_'

/-- Python `str.lower()` (per-character lowering; source data is ASCII). -/
def pyLower (s : String) : String := ⟨s.data.map Char.toLower⟩

/-- Python `str.strip()`: drop leading and trailing whitespace. -/
def pyStrip (s : String) : String :=
  ⟨((s.data.dropWhile Char.isWhitespace).reverse.dropWhile Char.isWhitespace).reverse⟩

/-- Python `needle in hay` on strings: contiguous-substring test. -/
def containsSub (hay needle : String) : Bool := decide (needle.data <:+: hay.data)

/-- Python `hay.startswith(pre)`. -/
def startsWith (hay pre : String) : Bool := decide (pre.data <+: hay.data)

/-! ## A miniature regex engine for the click-pattern table

The source's `click_map` patterns use only literal characters, `\b` word
boundaries and `\s*`, all under `re.I` (`re.search` semantics: the pattern
may match anywhere in the text).  That fragment is embedded exactly. -/

/-- One token of a click-map pattern: a literal character (matched
case-insensitively, `re.I`), a word boundary `\b`, or `\s*`. -/
inductive RTok
  | ch (c : Char)
  | wb
  | wsStar
deriving DecidableEq

/-- Fuel-based matcher core (structural recursion so the kernel can evaluate
it; every recursive call shrinks `toks.length + cs.length`, so any fuel above
that sum is enough and the `0` case is never reached).  Does the token list
match a prefix of `cs`?  `prev` is the character just before the current
position (`none` at the start of the text), needed for `\b`.  `\s*`
backtracks over every possible run length. -/
def matchToksF : Nat → List RTok → Option Char → List Char → Bool
  | 0, _, _, _ => false
  | _ + 1, [], _, _ => true
  | f + 1, .ch c :: ts, _, d :: ds =>
      if c.toLower = d.toLower then matchToksF f ts (some d) ds else false
  | _ + 1, .ch _ :: _, _, [] => false
  | f + 1, .wb :: ts, prev, ds =>
      let leftWord := match prev with | some p => isWordChar p | none => false
      let rightWord := match ds with | d :: _ => isWordChar d | [] => false
      if leftWord ≠ rightWord then matchToksF f ts prev ds else false
  | f + 1, .wsStar :: ts, prev, [] => matchToksF f ts prev []
  | f + 1, .wsStar :: ts, prev, d :: ds =>
      matchToksF f ts prev (d :: ds) ||
        (d.isWhitespace && matchToksF f (.wsStar :: ts) (some d) ds)

/-- Matcher with adequate fuel. -/
def matchToks (ts : List RTok) (prev : Option Char) (cs : List Char) : Bool :=
  matchToksF (ts.length + cs.length + 1) ts prev cs

/-- Search step of `re.search`: try to match at every start position of the text. -/
def searchFrom : List RTok → Option Char → List Char → Bool
  | toks, prev, [] => matchToks toks prev []
  | toks, prev, d :: ds => matchToks toks prev (d :: ds) || searchFrom toks (some d) ds

/-- Boolean `re.search(pattern, text, flags=re.I)`. -/
def reSearch (toks : List RTok) (s : String) : Bool := searchFrom toks none s.data

/-- Literal characters of a pattern fragment. -/
def lits (s : String) : List RTok := s.data.map RTok.ch

/-! ## Action Compiler (`build_steps_from_excel`, scenario1.py lines 98-150) -/

/-- The `PendingAction` tagged union produced by the Action Compiler.
`click` carries the canonical UI label, `free` the (stripped) message. -/
inductive Step
  | click (label : String)
  | free (text : String)
deriving DecidableEq

/-- One `ContextTurn` reporting row per transcript row. -/
structure CtxTurn where
  role : String
  agent : String
  text : String
deriving DecidableEq

/-- The source's `click_map` table, in source order.  Each Python pattern is
spelled out token for token: `\b` becomes `RTok.wb`, `\s*` becomes
`RTok.wsStar`, escaped literals (`\+`) are plain characters. -/
def click_map : List (List RTok × String) :=
  [ (.wb :: lits "Live in it" ++ [.wb], "Live in it")
  , (.wb :: lits "Rent it out" ++ [.wb], "Rent it out")
  , (.wb :: lits "6+" ++ .wsStar :: lits "months" ++ [.wb], "6+ months away")
  , (.wb :: lits "3-6" ++ .wsStar :: lits "months" ++ [.wb], "3-6 months away")
  , (.wb :: lits "less than 3 months" ++ [.wb], "Less than 3 months")
  , (.wb :: lits "already ended" ++ [.wb], "It\x27s already ended")
  , (.wb :: lits "Check here" ++ [.wb], "Check here")
  ]

/-- First entry of `click_map` whose pattern matches `msg`, if any
(the compiler's `for patt, label in click_map: ... break`). -/
def firstClick (msg : String) : Option String :=
  click_map.findSome? (fun pl => if reSearch pl.1 msg then some pl.2 else none)

/-- The action (if any) one transcript row contributes
(`build_steps_from_excel` loop body, lines 128-148): only rows whose
stripped speaker is `"anant"` case-insensitively and whose stripped message
is nonempty become steps; first matching pattern wins, else free text. -/
def rowStep (rawWho rawMsg : String) : Option Step :=
  let who := pyStrip rawWho
  let msg := pyStrip rawMsg
  if pyLower who = "anant" ∧ msg ≠ "" then
    match firstClick msg with
    | some lab => some (.click lab)
    | none => some (.free msg)
  else none

/-- The `ContextTurn` every row contributes (lines 133-137). -/
def rowCtx (rawWho rawMsg : String) : CtxTurn :=
  let who := pyStrip rawWho
  let msg := pyStrip rawMsg
  { role := if startsWith (pyLower who) "compare" then "assistant" else "user"
  , agent := if who = "" then "Unknown" else who
  , text := msg }

/-- The compiler `build_steps_from_excel`: rows (as Speaker, Message pairs already parsed
by the external tabular loader) to the pending-action queue plus the
reporting context, in transcript order. -/
def build_steps_from_excel : List (String × String) → List Step × List CtxTurn
  | [] => ([], [])
  | (w, m) :: rest =>
      let r := build_steps_from_excel rest
      ((rowStep w m).toList ++ r.1, rowCtx w m :: r.2)

/-! ## Choice preferences (`run_scenario1`, lines 304-318) -/

/-- The `CHOICE_PREFERENCES` map: at most one preferred literal answer per category. -/
structure Prefs where
  term_end : Option String
  occupancy : Option String
deriving DecidableEq

/-- One iteration of the preference scan over a context turn's text
(the two separate `if`/`elif` chains of lines 306-318). -/
def scanPrefTurn (p : Prefs) (rawTxt : String) : Prefs :=
  let txt := pyLower rawTxt
  let occ :=
    if containsSub txt "live in it" then some "Live in it"
    else if containsSub txt "rent it out" then some "Rent it out"
    else p.occupancy
  let te :=
    if containsSub txt "6+ months" then some "6+ months away"
    else if containsSub txt "3-6 months" || containsSub txt "3 – 6 months" ||
        containsSub txt "3–6 months" then some "3-6 months away"
    else if containsSub txt "less than 3 months" then some "Less than 3 months"
    else if containsSub txt "already ended" then some "It\x27s already ended"
    else p.term_end
  { term_end := te, occupancy := occ }

/-- Scan of all context turns; a later match overwrites an earlier one. -/
def derivePrefs (ctx : List CtxTurn) : Prefs :=
  ctx.foldl (fun p t => scanPrefTurn p t.text) ⟨none, none⟩

/-! ## Decision policy / replay engine (`run_scenario1`, lines 320-440) -/

/-- The `PROGRESS_BUTTONS` vocabulary, in source order. -/
def PROGRESS_BUTTONS : List String :=
  [ "Compare live mortgage deals", "Get an expert recommendation", "Continue"
  , "Next", "Compare deals", "Start comparison", "Proceed", "OK" ]

/-- The `term_end_set` vocabulary (line 358). -/
def term_end_set : List String :=
  ["6+ months away", "3-6 months away", "Less than 3 months", "It\x27s already ended"]

/-- The `occupancy_set` vocabulary (line 359). -/
def occupancy_set : List String := ["Live in it", "Rent it out"]

/-- Python `len(set(visible) & term_end_set)`: distinct visible labels that are
exact members of the term-end vocabulary. -/
def distinctTermEnd (visible : List String) : Nat :=
  ((visible.filter (fun b => term_end_set.contains b)).dedup).length

/-- Does a progression phrase `pbtn` substring-match some visible label
(`pbtn.lower() in b.lower()`)? -/
def matchesAnyVisible (pbtn : String) (visible : List String) : Bool :=
  visible.any (fun b => containsSub (pyLower b) (pyLower pbtn))

/-- Is the primary CTA visible (`"compare live mortgage deals" in b.lower()`)? -/
def primaryCtaVisible (visible : List String) : Bool :=
  visible.any (fun b => containsSub (pyLower b) "compare live mortgage deals")

/-- Rule P's selection (lines 362-369): first progression phrase that matches
a visible label, overridden by the primary CTA when it is also visible. -/
def next_progress (visible : List String) : Option String :=
  match PROGRESS_BUTTONS.find? (fun p => matchesAnyVisible p visible) with
  | none => none
  | some pbtn =>
      some (if primaryCtaVisible visible then "Compare live mortgage deals" else pbtn)

/-- Remove the first list element satisfying `p`, returning it and the rest
in order (the `enumerate`/`pop(i)` helpers of lines 333-345). -/
def popFirst (p : Step → Bool) : List Step → Option (Step × List Step)
  | [] => none
  | s :: rest =>
      if p s then some (s, rest)
      else match popFirst p rest with
        | some (x, rest2) => some (x, s :: rest2)
        | none => none

/-- Predicate of `_pop_matching_click`: a click step whose label
substring-matches some visible label (line 343). -/
def stepMatchesVisible (visible : List String) : Step → Bool
  | .click lab => visible.any (fun b => containsSub (pyLower b) (pyLower lab))
  | .free _ => false

/-- Predicate of `_pop_next_free_text` (line 335). -/
def isFreeText : Step → Bool
  | .free _ => true
  | .click _ => false

/-- The label/text carried by a step. -/
def Step.payload : Step → String
  | .click lab => lab
  | .free t => t

/-- One `TranscriptEvent` appended by the engine loop, abstracted to its
kind and payload (timestamps and screenshot paths are side-channel data
produced by external collaborators). -/
inductive TEvent
  | progress (label : String)
  | termEndAnswer (choice : String)
  | occupancyAnswer (choice : String)
  | checkHere
  | transcriptClick (label : String)
  | freeTextTyped (text : String)
  | idle
deriving DecidableEq

/-- Engine state: the pending-action queue, the `answered` flags, and the
index `k` of the next observation to be consumed from the Page Automation
stub (each `observe_current_buttons` call consumes one index, in order). -/
structure EngState where
  pending : List Step
  answered_term_end : Bool
  answered_occupancy : Bool
  k : Nat
deriving DecidableEq

/-- Result of one tick: continue looping or break out (Rule F). -/
inductive TickResult
  | cont (e : TEvent) (st : EngState)
  | stop (e : TEvent) (st : EngState)
deriving DecidableEq

def TickResult.event : TickResult → TEvent
  | .cont e _ => e
  | .stop e _ => e

def TickResult.state : TickResult → EngState
  | .cont _ s => s
  | .stop _ s => s

/-- The recovery scroll cycles (lines 429-433): up to 3 scroll-down +
re-observe rounds, stopping early once an observation is non-empty.
Returns the observation index after the rounds.  Note the revealed labels
are discarded by the source: control always falls through to the idle log
and `break`. -/
def scrollRecoveryK (obs : Nat → List String) (k : Nat) : Nat :=
  if obs k ≠ [] then k + 1
  else if obs (k + 1) ≠ [] then k + 2
  else k + 3

/-- One iteration of the main loop body (lines 350-440): observe, then apply
the first rule of P, A, B, C, D, E that fires; otherwise Rule F (recovery
scrolls, idle event, break). -/
def tick (obs : Nat → List String) (prefs : Prefs) (st : EngState) : TickResult :=
  let visible := obs st.k
  let st1 : EngState :=
    { pending := st.pending, answered_term_end := st.answered_term_end
    , answered_occupancy := st.answered_occupancy, k := st.k + 1 }
  match next_progress visible with
  | some lab => .cont (.progress lab) st1
  | none =>
    if !st.answered_term_end ∧ 2 ≤ distinctTermEnd visible then
      .cont (.termEndAnswer (prefs.term_end.getD "3-6 months away"))
        { st1 with answered_term_end := true }
    else if !st.answered_occupancy ∧ visible.any (fun b => occupancy_set.contains b) then
      .cont (.occupancyAnswer (prefs.occupancy.getD "Live in it"))
        { st1 with answered_occupancy := true }
    else if visible.any (fun b => containsSub (pyLower b) "check here") then
      .cont .checkHere st1
    else
      match popFirst (stepMatchesVisible visible) st.pending with
      | some (s, rest) => .cont (.transcriptClick s.payload) { st1 with pending := rest }
      | none =>
        match popFirst isFreeText st.pending with
        | some (s, rest) => .cont (.freeTextTyped s.payload) { st1 with pending := rest }
        | none => .stop .idle { st1 with k := scrollRecoveryK obs st1.k }

/-- How the loop ended: Rule F's idle `break`, or exhausting the hard
iteration cap (`for _ in range(80)` running out) — both normal returns. -/
inductive StopReason
  | idleStop
  | capReached
deriving DecidableEq

/-- The bounded main loop, by fuel. -/
def runLoop (obs : Nat → List String) (prefs : Prefs) :
    Nat → EngState → List TEvent × EngState × StopReason
  | 0, st => ([], st, .capReached)
  | Nat.succ n, st =>
      match tick obs prefs st with
      | .stop e st2 => ([e], st2, .idleStop)
      | .cont e st2 =>
          let r := runLoop obs prefs n st2
          (e :: r.1, r.2.1, r.2.2)

/-- The hard iteration cap of the main loop (`range(80)`, line 350). -/
def ITERATION_CAP : Nat := 80

/-- The replay engine: the main loop of `run_scenario1` run from a fresh
state over a Page Automation stub `obs` (observation stream), a compiled
pending-action queue and the derived choice preferences. -/
def run_scenario1_engine (obs : Nat → List String) (steps : List Step)
    (prefs : Prefs) : List TEvent × EngState × StopReason :=
  runLoop obs prefs ITERATION_CAP ⟨steps, false, false, 0⟩

/-- Every engine event except the Rule F idle log records an executed action. -/
def isActionEvent : TEvent → Bool
  | .idle => false
  | _ => true

/-- Events that answer the `"term_end"` category (Rule A's log line). -/
def isTermEndEvent : TEvent → Bool
  | .termEndAnswer _ => true
  | _ => false

/-- Events that answer the `"occupancy"` category (Rule B's log line). -/
def isOccupancyEvent : TEvent → Bool
  | .occupancyAnswer _ => true
  | _ => false

/-- Rule F's idle log line. -/
def isIdleEvent : TEvent → Bool
  | .idle => true
  | _ => false

/-- A constant observation stream (the same labels on every
`observe_current_buttons` call). -/
def constObs (v : List String) : Nat → List String := fun _ => v

/-! ## Semantic Judge (`metrics.py`, lines 28-51) -/

/-- The `JudgmentResult` record: verdict plus cosine-similarity score.  The source
computes over IEEE floats; scores are modelled as rationals. -/
structure JudgmentResult where
  is_match : Bool
  score : ℚ
deriving DecidableEq

/-- Outcome of `semantic_agreement`: a result together with the log of
texts sent to the embedding collaborator (one entry per `embed_query`
call), or the `RuntimeError` of `_require_embeddings`. -/
inductive JudgeOutcome
  | ok (r : JudgmentResult) (calls : List String)
  | depUnavailable
deriving DecidableEq

/-- Model of `semantic_agreement(text_a, text_b, threshold)`.  The embedding
collaborator (`OpenAIEmbeddings().embed_query`) is the parameter `embed`
with availability flag `avail` (`OpenAIEmbeddings is None` when the import
failed), and sklearn's `cosine_similarity` kernel is the external parameter
`cos`.  The empty-input short-circuit (line 41) runs before
`_require_embeddings` and issues no embedding call. -/
def semantic_agreement (avail : Bool) (embed : String → List ℚ)
    (cos : List ℚ → List ℚ → ℚ) (text_a text_b : String) (threshold : ℚ) :
    JudgeOutcome :=
  if text_a = "" ∨ text_b = "" then .ok ⟨false, 0⟩ []
  else if !avail then .depUnavailable
  else
    let v_a := embed text_a
    let v_b := embed text_b
    let score := cos v_a v_b
    .ok ⟨decide (threshold ≤ score), score⟩ [text_a, text_b]

/-! ## Transcript Loader error taxonomy (`_load_transcript_any`, lines 49-95)

The tabular parse itself (pandas) is the external collaborator; `headers`
is the column list of the DataFrame it returns. -/

/-- The three error kinds the loader raises. -/
inductive LoadErr
  | fileNotFound
  | unsupportedFormat
  | missingColumns
deriving DecidableEq

/-- Loader outcome: an error, or the original-cased names of the two
selected columns. -/
inductive LoadResult
  | err (e : LoadErr)
  | ok (speakerCol messageCol : String)
deriving DecidableEq

/-- The extensions the `if`/`elif` dispatch of lines 58-64 accepts. -/
def supported_extensions : List String :=
  [".xlsx", ".xlsm", ".xltx", ".xltm", ".xls", ".xlsb", ".csv"]

/-- Python dict comprehension lookup (the source builds `lower = ...` mapping each lowered column name to the column): it keeps
the last column whose lowering equals `name`. -/
def lastWithLower (hs : List String) (name : String) : Option String :=
  hs.reverse.find? (fun c => pyLower c = name)

/-- Check structure of `_load_transcript_any`: existence first
(line 54), then the extension dispatch (lines 57-82), then — after the
external parse — header normalization and the required-column check
(lines 85-90). -/
def _load_transcript_any (pathExists : Bool) (ext : String)
    (headers : List String) : LoadResult :=
  if !pathExists then .err .fileNotFound
  else if !(supported_extensions.contains (pyLower ext)) then .err .unsupportedFormat
  else
    let hs := headers.map pyStrip
    match lastWithLower hs "speaker", lastWithLower hs "message" with
    | some s, some m => .ok s m
    | _, _ => .err .missingColumns

/-! ## Resource cleanup skeleton of `run_scenario1` (lines 252-461) -/

/-- Phases of `run_scenario1` that can raise after the `AgentFactory`
(browser session + model client) has been constructed, in source order.
`summary` is the optional end-of-run LLM summary (lines 444-449). -/
inductive RunPhase
  | launch
  | navigate
  | replayLoop
  | summary
  | excelLog
  | report
deriving DecidableEq

/-- What a `run_scenario1` call left behind. -/
structure RunOutcome where
  raised : Option RunPhase
  summaryPlaceholder : Bool
  browserClosed : Bool
  clientClosed : Bool
deriving DecidableEq

/-- Control-flow skeleton of `run_scenario1` for exit-path analysis, given
which phases raise.  The only `try`/`except` is the one around the summary
step (lines 445-449), which replaces the summary text with the
`"Summary failed: ..."` placeholder; `B.close()` and `factory.aclose()` are
the last statements of the function body (lines 459-460) with no
`try`/`finally` around them, so they run only when no earlier phase
propagated an exception. -/
def run_scenario1_exits (fails : RunPhase → Bool) : RunOutcome :=
  if fails .launch then ⟨some .launch, false, false, false⟩
  else if fails .navigate then ⟨some .navigate, false, false, false⟩
  else if fails .replayLoop then ⟨some .replayLoop, false, false, false⟩
  else
    let placeholder := fails .summary
    if fails .excelLog then ⟨some .excelLog, placeholder, false, false⟩
    else if fails .report then ⟨some .report, placeholder, false, false⟩
    else ⟨none, placeholder, true, true⟩

/-! ## Named concrete inputs used by the claim theorems -/

/-- The 3-row transcript of the end-to-end scenario. -/
def c1_rows : List (String × String) :=
  [("Compare", "Welcome"), ("Anant", "Live in it"), ("Anant", "looking good")]

/-- Stub Page Automation of the end-to-end scenario: affordances on the
first observation only. -/
def c1_obs : Nat → List String :=
  fun k => if k = 0 then ["Live in it", "Rent it out"] else []

/-- An affordance list showing two distinct term-end labels together with a
generic progression label. -/
def c2_visible : List String := ["Continue", "6+ months away", "3-6 months away"]

/-- Stub Page Automation whose initial observation is empty but whose first
recovery re-observation (index 1) reveals an affordance. -/
def c5_obs : Nat → List String := fun k => if k = 0 then [] else ["Continue"]

/-! ## Auxiliary lemmas about one tick -/

/-- Across one tick the `term_end` answered flag grows exactly by Rule A's
event, and Rule A only fires when the flag was still unset. -/
lemma tick_termEnd_flag (obs : Nat → List String) (prefs : Prefs) (st : EngState) :
    (tick obs prefs st).state.answered_term_end
        = (st.answered_term_end || isTermEndEvent (tick obs prefs st).event)
      ∧ (isTermEndEvent (tick obs prefs st).event = true →
          st.answered_term_end = false) := by
  simp only [tick]
  repeat' split
  all_goals simp_all [TickResult.state, TickResult.event, isTermEndEvent]

/-- Same statement for the `occupancy` flag and Rule B. -/
lemma tick_occupancy_flag (obs : Nat → List String) (prefs : Prefs) (st : EngState) :
    (tick obs prefs st).state.answered_occupancy
        = (st.answered_occupancy || isOccupancyEvent (tick obs prefs st).event)
      ∧ (isOccupancyEvent (tick obs prefs st).event = true →
          st.answered_occupancy = false) := by
  simp only [tick]
  repeat' split
  all_goals simp_all [TickResult.state, TickResult.event, isOccupancyEvent]

/-! ## Auxiliary lemmas about the bounded loop -/

/-- Once the `term_end` flag is set it stays set, and no further Rule A
event is ever logged. -/
lemma runLoop_termEnd_zero (obs : Nat → List String) (prefs : Prefs) :
    ∀ (fuel : Nat) (st : EngState), st.answered_term_end = true →
      (runLoop obs prefs fuel st).1.countP isTermEndEvent = 0
      ∧ (runLoop obs prefs fuel st).2.1.answered_term_end = true := by
  intro fuel
  induction fuel with
  | zero => intro st hst; simp [runLoop, hst]
  | succ n ih =>
    intro st hst
    have h := tick_termEnd_flag obs prefs st
    cases htick : tick obs prefs st with
    | stop e st2 =>
      rw [htick] at h
      simp only [TickResult.state, TickResult.event] at h
      have he : isTermEndEvent e = false := by
        cases he : isTermEndEvent e
        · rfl
        · exact absurd hst (by simp [h.2 he])
      simp [runLoop, htick, List.countP_cons, he, h.1, hst]
    | cont e st2 =>
      rw [htick] at h
      simp only [TickResult.state, TickResult.event] at h
      have he : isTermEndEvent e = false := by
        cases he : isTermEndEvent e
        · rfl
        · exact absurd hst (by simp [h.2 he])
      have hst2 : st2.answered_term_end = true := by simp [h.1, hst]
      have hr := ih st2 hst2
      simp [runLoop, htick, List.countP_cons, he, hr.1, hr.2]

/-- Any run segment logs at most one Rule A event. -/
lemma runLoop_termEnd_le_one (obs : Nat → List String) (prefs : Prefs) :
    ∀ (fuel : Nat) (st : EngState),
      (runLoop obs prefs fuel st).1.countP isTermEndEvent ≤ 1 := by
  intro fuel
  induction fuel with
  | zero => intro st; simp [runLoop]
  | succ n ih =>
    intro st
    have h := tick_termEnd_flag obs prefs st
    cases htick : tick obs prefs st with
    | stop e st2 =>
      simp only [runLoop, htick, List.countP_cons, List.countP_nil]
      split <;> omega
    | cont e st2 =>
      rw [htick] at h
      simp only [TickResult.state, TickResult.event] at h
      cases he : isTermEndEvent e with
      | true =>
        have hst2 : st2.answered_term_end = true := by simp [h.1, he]
        have hz := (runLoop_termEnd_zero obs prefs n st2 hst2).1
        simp [runLoop, htick, List.countP_cons, he, hz]
      | false =>
        have hr := ih st2
        simp [runLoop, htick, List.countP_cons, he]
        exact hr

/-- Once the `occupancy` flag is set it stays set, and no further Rule B
event is ever logged. -/
lemma runLoop_occupancy_zero (obs : Nat → List String) (prefs : Prefs) :
    ∀ (fuel : Nat) (st : EngState), st.answered_occupancy = true →
      (runLoop obs prefs fuel st).1.countP isOccupancyEvent = 0
      ∧ (runLoop obs prefs fuel st).2.1.answered_occupancy = true := by
  intro fuel
  induction fuel with
  | zero => intro st hst; simp [runLoop, hst]
  | succ n ih =>
    intro st hst
    have h := tick_occupancy_flag obs prefs st
    cases htick : tick obs prefs st with
    | stop e st2 =>
      rw [htick] at h
      simp only [TickResult.state, TickResult.event] at h
      have he : isOccupancyEvent e = false := by
        cases he : isOccupancyEvent e
        · rfl
        · exact absurd hst (by simp [h.2 he])
      simp [runLoop, htick, List.countP_cons, he, h.1, hst]
    | cont e st2 =>
      rw [htick] at h
      simp only [TickResult.state, TickResult.event] at h
      have he : isOccupancyEvent e = false := by
        cases he : isOccupancyEvent e
        · rfl
        · exact absurd hst (by simp [h.2 he])
      have hst2 : st2.answered_occupancy = true := by simp [h.1, hst]
      have hr := ih st2 hst2
      simp [runLoop, htick, List.countP_cons, he, hr.1, hr.2]

/-- Any run segment logs at most one Rule B event. -/
lemma runLoop_occupancy_le_one (obs : Nat → List String) (prefs : Prefs) :
    ∀ (fuel : Nat) (st : EngState),
      (runLoop obs prefs fuel st).1.countP isOccupancyEvent ≤ 1 := by
  intro fuel
  induction fuel with
  | zero => intro st; simp [runLoop]
  | succ n ih =>
    intro st
    have h := tick_occupancy_flag obs prefs st
    cases htick : tick obs prefs st with
    | stop e st2 =>
      simp only [runLoop, htick, List.countP_cons, List.countP_nil]
      split <;> omega
    | cont e st2 =>
      rw [htick] at h
      simp only [TickResult.state, TickResult.event] at h
      cases he : isOccupancyEvent e with
      | true =>
        have hst2 : st2.answered_occupancy = true := by simp [h.1, he]
        have hz := (runLoop_occupancy_zero obs prefs n st2 hst2).1
        simp [runLoop, htick, List.countP_cons, he, hz]
      | false =>
        have hr := ih st2
        simp [runLoop, htick, List.countP_cons, he]
        exact hr

/-- With Rule P not firing and Rule A's trigger visible, an unanswered tick
fires Rule A and nothing else. -/
lemma tick_fires_termEnd (obs : Nat → List String) (prefs : Prefs) (st : EngState)
    (hp : next_progress (obs st.k) = none) (hflag : st.answered_term_end = false)
    (hd : 2 ≤ distinctTermEnd (obs st.k)) :
    tick obs prefs st
      = .cont (.termEndAnswer (prefs.term_end.getD "3-6 months away"))
          { pending := st.pending, answered_term_end := true
          , answered_occupancy := st.answered_occupancy, k := st.k + 1 } := by
  simp [tick, hp, hflag, hd]

/-- A run of positive fuel whose stream always enables Rule A and never
Rule P answers `term_end` exactly once. -/
lemma runLoop_termEnd_one (obs : Nat → List String) (prefs : Prefs)
    (hP : ∀ k, next_progress (obs k) = none)
    (hA : ∀ k, 2 ≤ distinctTermEnd (obs k)) (n : Nat) (st : EngState)
    (hflag : st.answered_term_end = false) :
    (runLoop obs prefs (n + 1) st).1.countP isTermEndEvent = 1 := by
  have ht := tick_fires_termEnd obs prefs st (hP st.k) hflag (hA st.k)
  have hz := (runLoop_termEnd_zero obs prefs n
      { pending := st.pending, answered_term_end := true
      , answered_occupancy := st.answered_occupancy, k := st.k + 1 } rfl).1
  simp [runLoop, ht, List.countP_cons, isTermEndEvent, hz]

/-- The loop performs at most `fuel` ticks, one event each. -/
lemma runLoop_length_le (obs : Nat → List String) (prefs : Prefs) :
    ∀ (fuel : Nat) (st : EngState), (runLoop obs prefs fuel st).1.length ≤ fuel := by
  intro fuel
  induction fuel with
  | zero => intro st; simp [runLoop]
  | succ n ih =>
    intro st
    cases htick : tick obs prefs st with
    | stop e st2 => simp [runLoop, htick]
    | cont e st2 =>
      have hr := ih st2
      simp only [runLoop, htick, List.length_cons]
      omega

/-! ## Claim theorems -/

/-- C1: on the 3-row transcript `[("Compare","Welcome"), ("Anant","Live in
it"), ("Anant","looking good")]` with a stub Page Automation whose first
observation shows `["Live in it","Rent it out"]` and every later observation
is empty, the engine answers `"occupancy"` via Rule B exactly once, then
types the remaining free text `"looking good"` via Rule E, then idle-stops
at Rule F, and the loop's appended event log holds exactly 2 action events
plus 1 idle event. -/
theorem C1_end_to_end :
    (run_scenario1_engine c1_obs (build_steps_from_excel c1_rows).1
        (derivePrefs (build_steps_from_excel c1_rows).2)).1
      = [.occupancyAnswer "Live in it", .freeTextTyped "looking good", .idle]
    ∧ (run_scenario1_engine c1_obs (build_steps_from_excel c1_rows).1
        (derivePrefs (build_steps_from_excel c1_rows).2)).2.2 = .idleStop
    ∧ (run_scenario1_engine c1_obs (build_steps_from_excel c1_rows).1
        (derivePrefs (build_steps_from_excel c1_rows).2)).1.countP isActionEvent = 2
    ∧ (run_scenario1_engine c1_obs (build_steps_from_excel c1_rows).1
        (derivePrefs (build_steps_from_excel c1_rows).2)).1.countP isIdleEvent = 1
    ∧ (run_scenario1_engine c1_obs (build_steps_from_excel c1_rows).1
        (derivePrefs (build_steps_from_excel c1_rows).2)).1.countP isOccupancyEvent
        = 1 := by decide

/-- C2 counterexample: a stream that shows two distinct term-end vocabulary
labels on every tick, but alongside a generic progression label
(`"Continue"`): Rule P preempts Rule A on every tick, so the whole run
produces zero `"term_end"` answer events, not exactly one. -/
theorem C2_counterexample :
    2 ≤ distinctTermEnd c2_visible
    ∧ (run_scenario1_engine (constObs c2_visible) [] ⟨none, none⟩).1.countP
        isTermEndEvent = 0
    ∧ (run_scenario1_engine (constObs c2_visible) [] ⟨none, none⟩).2.2
        = .capReached := by decide

/-- C2 (amended): each answered category fires at most once per run and its
flag is never reset; and a stream that on every tick shows at least two
distinct term-end vocabulary labels *and never triggers the
higher-priority Rule P* produces exactly one `"term_end"` answer event. -/
theorem C2_answered_once :
    ∀ (obs : Nat → List String) (steps : List Step) (prefs : Prefs),
      (run_scenario1_engine obs steps prefs).1.countP isTermEndEvent ≤ 1
      ∧ (run_scenario1_engine obs steps prefs).1.countP isOccupancyEvent ≤ 1
      ∧ (∀ (fuel : Nat) (st : EngState), st.answered_term_end = true →
          (runLoop obs prefs fuel st).2.1.answered_term_end = true
          ∧ (runLoop obs prefs fuel st).1.countP isTermEndEvent = 0)
      ∧ (∀ (fuel : Nat) (st : EngState), st.answered_occupancy = true →
          (runLoop obs prefs fuel st).2.1.answered_occupancy = true
          ∧ (runLoop obs prefs fuel st).1.countP isOccupancyEvent = 0)
      ∧ ((∀ k, next_progress (obs k) = none) →
          (∀ k, 2 ≤ distinctTermEnd (obs k)) →
          (run_scenario1_engine obs steps prefs).1.countP isTermEndEvent = 1) := by
  intro obs steps prefs
  refine ⟨runLoop_termEnd_le_one obs prefs _ _, runLoop_occupancy_le_one obs prefs _ _,
    fun fuel st h => ⟨(runLoop_termEnd_zero obs prefs fuel st h).2,
      (runLoop_termEnd_zero obs prefs fuel st h).1⟩,
    fun fuel st h => ⟨(runLoop_occupancy_zero obs prefs fuel st h).2,
      (runLoop_occupancy_zero obs prefs fuel st h).1⟩,
    fun hP hA => ?_⟩
  exact runLoop_termEnd_one obs prefs hP hA 79 _ rfl

/-- C2 witness: on the stream that always shows exactly the two labels
`"6+ months away"` and `"3-6 months away"`, a full run answers `"term_end"`
exactly once. -/
theorem C2_witness :
    (run_scenario1_engine (constObs ["6+ months away", "3-6 months away"]) []
        ⟨none, none⟩).1.countP isTermEndEvent = 1 :=
  (C2_answered_once (constObs ["6+ months away", "3-6 months away"]) []
      ⟨none, none⟩).2.2.2.2
    (fun _ => (by decide : next_progress ["6+ months away", "3-6 months away"] = none))
    (fun _ => (by decide : 2 ≤ distinctTermEnd ["6+ months away", "3-6 months away"]))

/-- C3: `semantic_agreement` returns `(false, 0.0)` with zero embedding
calls whenever either input is empty (before even the availability check);
otherwise, with the embedding dependency available, it embeds each text
once and returns the external cosine score with
`is_match = (score >= threshold)`. -/
theorem C3_semantic_agreement :
    ∀ (avail : Bool) (embed : String → List ℚ) (cos : List ℚ → List ℚ → ℚ)
      (a b : String) (t : ℚ),
      ((a = "" ∨ b = "") →
        semantic_agreement avail embed cos a b t = .ok ⟨false, 0⟩ [])
      ∧ (a ≠ "" → b ≠ "" → avail = true →
          semantic_agreement avail embed cos a b t
            = .ok ⟨decide (t ≤ cos (embed a) (embed b)), cos (embed a) (embed b)⟩
                [a, b]) := by
  intro avail embed cos a b t
  constructor
  · intro h
    unfold semantic_agreement
    rw [if_pos h]
  · intro ha hb hv
    unfold semantic_agreement
    rw [if_neg (by simp [ha, hb]), hv]
    rfl

/-- C3 witness: `agree("", "anything", 4/5)` is `(false, 0)` with an empty
embedding-call log, under an arbitrary stub collaborator. -/
theorem C3_witness :
    semantic_agreement true (fun _ => [1]) (fun _ _ => 0) "" "anything" (4 / 5)
      = .ok ⟨false, 0⟩ [] :=
  (C3_semantic_agreement true (fun _ => [1]) (fun _ _ => 0) "" "anything" (4 / 5)).1
    (Or.inl rfl)

/-- C4: the tick loop executes at most the hard cap of 80 ticks for every
input, and every run ends in one of the two normal stop reasons (cap
expiry or Rule F's idle stop) — the engine is a total function, so both are
non-fatal returns, never errors. -/
theorem C4_iteration_cap :
    ∀ (obs : Nat → List String) (steps : List Step) (prefs : Prefs),
      (run_scenario1_engine obs steps prefs).1.length ≤ ITERATION_CAP
      ∧ ((run_scenario1_engine obs steps prefs).2.2 = StopReason.capReached
          ∨ (run_scenario1_engine obs steps prefs).2.2 = StopReason.idleStop) := by
  intro obs steps prefs
  refine ⟨runLoop_length_le obs prefs _ _, ?_⟩
  cases (run_scenario1_engine obs steps prefs).2.2
  · exact Or.inr rfl
  · exact Or.inl rfl

/-- C5: the code diverges from the claim.  With an empty first observation
and a recovery re-observation (index 1) that reveals `["Continue"]`, the
engine still logs the idle event and terminates: the labels revealed by the
scroll-and-re-observe cycles are discarded (`visible` is reassigned at line
431 but never used), and control always falls through to the idle log and
`break`.  Final observation index 2 shows exactly one recovery
re-observation was consumed — the one that revealed an affordance. -/
theorem C5_recovery_divergence :
    (run_scenario1_engine c5_obs [] ⟨none, none⟩).1 = [TEvent.idle]
    ∧ (run_scenario1_engine c5_obs [] ⟨none, none⟩).2.2 = .idleStop
    ∧ c5_obs 1 ≠ []
    ∧ (run_scenario1_engine c5_obs [] ⟨none, none⟩).2.1.k = 2 := by decide

/-- C6 counterexample: the row `("Anant", "")` is attributed to the human
participant and matches no pattern, yet the Action Compiler emits no
`FreeText` action for it at all (the `and msg` guard at line 140 skips
rows whose stripped message is empty). -/
theorem C6_counterexample :
    rowStep "Anant" "" = none
    ∧ (build_steps_from_excel [("Anant", "")]).1 = [] := by decide

/-- C6 (amended): for every row attributed to the human participant, the
compiler tries the click table in order and stops at the first matching
entry, emitting `Click` with that entry's canonical label and never a
`FreeText`; a row whose stripped message is nonempty and matches no
pattern yields `FreeText` carrying the stripped message; a row whose
stripped message is empty yields no action.
(`firstClick` is the in-order first match over `click_map`, and matching is
case-insensitive and whitespace-tolerant by the patterns' construction.) -/
theorem C6_click_table :
    ∀ who msg : String, pyLower (pyStrip who) = "anant" →
      (∀ lab, firstClick (pyStrip msg) = some lab →
          rowStep who msg = some (Step.click lab)
          ∧ ∀ t, rowStep who msg ≠ some (Step.free t))
      ∧ (firstClick (pyStrip msg) = none → pyStrip msg ≠ "" →
          rowStep who msg = some (Step.free (pyStrip msg)))
      ∧ (pyStrip msg = "" → rowStep who msg = none) := by
  intro who msg hw
  refine ⟨?_, ?_, ?_⟩
  · intro lab hlab
    have hne : pyStrip msg ≠ "" := by
      intro he
      rw [he] at hlab
      rw [(by decide : firstClick "" = none)] at hlab
      exact Option.noConfusion hlab
    constructor
    · simp [rowStep, hw, hne, hlab]
    · intro t
      simp [rowStep, hw, hne, hlab]
  · intro hnone hne
    simp [rowStep, hw, hne, hnone]
  · intro he
    simp [rowStep, he]

/-- C6 witness: a cased, whitespace-padded human row matching the first
table entry compiles to `Click "Live in it"`. -/
theorem C6_witness :
    rowStep "  ANANT " " i will LIVE IN IT " = some (Step.click "Live in it") :=
  ((C6_click_table "  ANANT " " i will LIVE IN IT " (by decide)).1
    "Live in it" (by decide)).1

/-- C7 counterexample: for a nonexistent path with the unsupported
extension `".txt"`, the loader fails with the file-not-found error, not the
unsupported-format error — so "fails with UnsupportedFormatError exactly
when the extension is unsupported" is false as a biconditional: the
existence check runs first. -/
theorem C7_counterexample :
    _load_transcript_any false ".txt" ["Speaker", "Message"]
        = .err .fileNotFound
    ∧ supported_extensions.contains (pyLower ".txt") = false
    ∧ _load_transcript_any false ".txt" ["Speaker", "Message"]
        ≠ .err .unsupportedFormat := by decide

/-- C7 (amended): the loader's checks are ordered.  It fails file-not-found
exactly when the path does not exist; given an existing path, it fails
unsupported-format exactly when the lowered extension is outside the
supported set; given an existing path and supported extension, it fails
missing-columns exactly when the stripped, case-insensitively matched
headers lack `"speaker"` or `"message"`; and it succeeds otherwise. -/
theorem C7_loader_errors :
    ∀ (present : Bool) (ext : String) (headers : List String),
      (_load_transcript_any present ext headers = .err .fileNotFound
        ↔ present = false)
      ∧ (_load_transcript_any present ext headers = .err .unsupportedFormat
        ↔ present = true ∧ supported_extensions.contains (pyLower ext) = false)
      ∧ (_load_transcript_any present ext headers = .err .missingColumns
        ↔ present = true ∧ supported_extensions.contains (pyLower ext) = true
          ∧ (lastWithLower (headers.map pyStrip) "speaker" = none
             ∨ lastWithLower (headers.map pyStrip) "message" = none))
      ∧ ((∃ s m, _load_transcript_any present ext headers = .ok s m)
        ↔ present = true ∧ supported_extensions.contains (pyLower ext) = true
          ∧ lastWithLower (headers.map pyStrip) "speaker" ≠ none
          ∧ lastWithLower (headers.map pyStrip) "message" ≠ none) := by
  intro present ext headers
  cases present with
  | false => simp [_load_transcript_any]
  | true =>
    cases hext : supported_extensions.contains (pyLower ext) with
    | false =>
      have hmem : ¬ pyLower ext ∈ supported_extensions := by simpa using hext
      simp [_load_transcript_any, hext, hmem]
    | true =>
      have hmem : pyLower ext ∈ supported_extensions := by simpa using hext
      cases hs : lastWithLower (headers.map pyStrip) "speaker" with
      | none => simp [_load_transcript_any, hext, hmem, hs]
      | some s =>
        cases hm : lastWithLower (headers.map pyStrip) "message" with
        | none => simp [_load_transcript_any, hext, hmem, hs, hm]
        | some m => simp [_load_transcript_any, hext, hmem, hs, hm]

/-- C7 witness: an existing `.csv` with exact headers loads successfully. -/
theorem C7_witness :
    ∃ s m, _load_transcript_any true ".csv" ["Speaker", "Message"]
        = .ok s m :=
  (C7_loader_errors true ".csv" ["Speaker", "Message"]).2.2.2.mpr
    ⟨rfl, by decide, by decide, by decide⟩

/-- C8: on any tick where some visible label substring-matches the
progression vocabulary, the engine emits exactly one progress event (one
label, one event, nothing else changes but the observation cursor), and if
the primary CTA `"Compare live mortgage deals"` is simultaneously visible,
the acted-on label is the primary CTA, overriding any generic progression
label. -/
theorem C8_progress_priority :
    ∀ (obs : Nat → List String) (prefs : Prefs) (st : EngState),
      (∃ p ∈ PROGRESS_BUTTONS, matchesAnyVisible p (obs st.k) = true) →
      ∃ lab, tick obs prefs st
          = .cont (.progress lab)
              { pending := st.pending, answered_term_end := st.answered_term_end
              , answered_occupancy := st.answered_occupancy, k := st.k + 1 }
        ∧ (primaryCtaVisible (obs st.k) = true
            → lab = "Compare live mortgage deals") := by
  intro obs prefs st h
  obtain ⟨p, hp, hm⟩ := h
  have hfind : (PROGRESS_BUTTONS.find? (fun q => matchesAnyVisible q (obs st.k))).isSome := by
    rw [List.find?_isSome]
    exact ⟨p, hp, hm⟩
  obtain ⟨pbtn, hpb⟩ := Option.isSome_iff_exists.mp hfind
  refine ⟨if primaryCtaVisible (obs st.k) then "Compare live mortgage deals" else pbtn,
    ?_, ?_⟩
  · simp [tick, next_progress, hpb]
  · intro hcta
    simp [hcta]

/-- C8 witness: with a generic `"Next"` match and the primary CTA both
visible, the tick acts on the primary CTA. -/
theorem C8_witness :
    tick (constObs ["Next step", "Compare live mortgage deals"]) ⟨none, none⟩
        ⟨[], false, false, 0⟩
      = .cont (.progress "Compare live mortgage deals") ⟨[], false, false, 1⟩ := by
  obtain ⟨lab, h1, h2⟩ := C8_progress_priority
    (constObs ["Next step", "Compare live mortgage deals"]) ⟨none, none⟩
    ⟨[], false, false, 0⟩ ⟨"Compare live mortgage deals", by decide, by decide⟩
  rw [h2 (by decide)] at h1
  exact h1

/-- C9: the code diverges from the claim.  A navigation failure after the
browser session and model client are created propagates out of
`run_scenario1` without `B.close()` or `factory.aclose()` being invoked
(there is no try/finally around the body).  The summary sub-claim does
hold: a summary failure alone is caught, reduced to the placeholder text,
and the run still closes both resources, as does the normal path. -/
theorem C9_cleanup_divergence :
    run_scenario1_exits (fun p => decide (p = RunPhase.navigate))
        = ⟨some .navigate, false, false, false⟩
    ∧ run_scenario1_exits (fun p => decide (p = RunPhase.summary))
        = ⟨none, true, true, true⟩
    ∧ run_scenario1_exits (fun _ => false) = ⟨none, false, true, true⟩ := by decide

/-- C10: every transcript row contributes exactly one `ContextTurn`
(context count = row count); a human-participant row whose message strips
to empty contributes its `ContextTurn` but no pending action; hence the
action count can be strictly smaller than the human-row count. -/
theorem C10_context_per_row :
    (∀ rows : List (String × String),
        (build_steps_from_excel rows).2.length = rows.length)
    ∧ (∀ (who msg : String) (rest : List (String × String)),
        pyLower (pyStrip who) = "anant" → pyStrip msg = "" →
          (build_steps_from_excel ((who, msg) :: rest)).1
              = (build_steps_from_excel rest).1
          ∧ (build_steps_from_excel ((who, msg) :: rest)).2
              = rowCtx who msg :: (build_steps_from_excel rest).2)
    ∧ (∃ rows : List (String × String),
        (build_steps_from_excel rows).1.length
          < rows.countP (fun r => decide (pyLower (pyStrip r.1) = "anant"))) := by
  refine ⟨?_, ?_, ⟨[("Anant", "")], by decide⟩⟩
  · intro rows
    induction rows with
    | nil => rfl
    | cons r rest ih => simp [build_steps_from_excel, ih]
  · intro who msg rest h1 h2
    have hnone : rowStep who msg = none := by simp [rowStep, h2]
    simp [build_steps_from_excel, hnone]

/-- C10 witness: prepending the human row `("Anant", " ")` leaves the
pending-action queue unchanged. -/
theorem C10_witness :
    (build_steps_from_excel [("Anant", " ")]).1
      = (build_steps_from_excel []).1 :=
  (C10_context_per_row.2.1 "Anant" " " [] (by decide) (by decide)).1

end AiAuto
